import Mathlib

/-!
# Shallow embedding of the e-commerce cart and product controllers

Definitions are translated from `src/controllers/CartController.js`,
the product controller (`src/unnamed/part_001`, `productController.js`)
and `src/models/Product.js`.  JavaScript numbers are modelled as
rationals (`ℚ`), identifiers and quantities as naturals.  The document
database is modelled as a list of products plus an optional cart
document per user; every `save`/`create` call of the source is made
explicit in the operation's result type, so persistence behaviour is
part of each theorem's statement.
-/

namespace ECommerce

/-! ## Data model -/

/-- One product review (`src/models/Product.js`, `reviewSchema`). -/
structure Review where
  user : Nat
  rating : Nat
  comment : String
deriving Repr, DecidableEq

/-- A catalog product (`src/models/Product.js`, `productSchema`); only the
fields the controllers read are modelled. -/
structure Product where
  id : Nat
  name : String
  description : String
  price : ℚ
  category : Nat
  brand : String
  inventoryQuantity : Nat
  lowStockThreshold : Nat
  reviews : List Review
  ratingsAverage : ℚ
  ratingsCount : Nat
  isActive : Bool
  isFeatured : Bool
  tags : List String
deriving Repr, DecidableEq

/-- One cart line item: product reference, quantity, snapshot price. -/
structure CartItem where
  product : Nat
  quantity : Nat
  price : ℚ
deriving Repr, DecidableEq

/-- The per-user cart document with its denormalised totals. -/
structure Cart where
  user : Nat
  items : List CartItem
  totalItems : Nat
  totalPrice : ℚ
deriving Repr, DecidableEq

/-- `Product.findById`: the document with the given id, if any. -/
def findById (catalog : List Product) (pid : Nat) : Option Product :=
  catalog.find? (fun p => p.id == pid)

/-- Sum of line-item quantities. -/
def sumQuantities (items : List CartItem) : Nat :=
  (items.map (fun i => i.quantity)).sum

/-- Sum of line-item price × quantity. -/
def sumPrices (items : List CartItem) : ℚ :=
  (items.map (fun i => i.price * (i.quantity : ℚ))).sum

/-- Modelled from the spec: the Cart model file (`src/models/Cart.js`) is not
among the provided sources, only its callers in the cart controller are.
Per the spec's Cart Aggregate (`recomputeTotals`, §4.1), persisting a cart
recomputes `totalItems = Σ quantity` and `totalPrice = Σ price × quantity`
over the current items before the write; `cartSave c` is the document as
persisted by `cart.save()`. -/
def cartSave (c : Cart) : Cart :=
  { c with totalItems := sumQuantities c.items, totalPrice := sumPrices c.items }

/-- `new Cart({ user, items: [] })` with the schema defaults for totals. -/
def emptyCart (u : Nat) : Cart :=
  { user := u, items := [], totalItems := 0, totalPrice := 0 }

/-! ## Cart controller (`src/controllers/CartController.js`) -/

/-- Outcome of a mutating cart endpoint: an HTTP error (status, message), or
success carrying the cart as saved and returned. -/
inductive CartResponse where
  | err (status : Nat) (message : String)
  | ok (cart : Cart)
deriving Repr, DecidableEq

/-- Message of the plain stock check (CartController.js lines 66 and 173). -/
def stockMsg (avail : Nat) : String :=
  s!"Only {avail} items available in stock"

/-- Message of the merge-branch stock check (line 91); the JS subtraction
can go negative, hence the integer argument. -/
def moreAvailMsg (q : Nat) (more : Int) : String :=
  s!"Cannot add {q} items. Only {more} more available"

/-- The merge step of addToCart (lines 79-103): find the first line item for
the product; if found, merge quantities after re-checking inventory against
the merged quantity, else append a new item snapshotting the current
product price. -/
def addItemToItems (items : List CartItem) (pid q inv : Nat) (price : ℚ) :
    Except String (List CartItem) :=
  match items with
  | [] => .ok [{ product := pid, quantity := q, price := price }]
  | it :: rest =>
    if it.product == pid then
      if inv < it.quantity + q then
        .error (moreAvailMsg q ((inv : Int) - (it.quantity : Int)))
      else
        .ok ({ it with quantity := it.quantity + q } :: rest)
    else
      match addItemToItems rest pid q inv price with
      | .error m => .error m
      | .ok rest2 => .ok (it :: rest2)

/-- Find-or-create of the cart (lines 71-77). -/
def cartOrNew (cart0 : Option Cart) (user : Nat) : Cart :=
  match cart0 with
  | some c => c
  | none => emptyCart user

/-- addToCart (lines 49-126). -/
def addToCart (catalog : List Product) (cart0 : Option Cart)
    (user pid q : Nat) : CartResponse :=
  match findById catalog pid with
  | none => .err 404 "Product not found or inactive"
  | some product =>
    if product.isActive = false then
      .err 404 "Product not found or inactive"
    else if product.inventoryQuantity < q then
      .err 400 (stockMsg product.inventoryQuantity)
    else
      match addItemToItems (cartOrNew cart0 user).items pid q
          product.inventoryQuantity product.price with
      | .error m => .err 400 m
      | .ok items2 => .ok (cartSave { cartOrNew cart0 user with items := items2 })

/-- The update step (lines 177-179): set the first matching item's quantity
and re-sync its snapshot price to the current catalog price. -/
def setItemInItems (items : List CartItem) (pid q : Nat) (price : ℚ) :
    List CartItem :=
  match items with
  | [] => []
  | it :: rest =>
    if it.product == pid then { it with quantity := q, price := price } :: rest
    else it :: setItemInItems rest pid q price

/-- Whether the cart has a line item for the product (`findIndex` ≠ -1). -/
def hasItem (items : List CartItem) (pid : Nat) : Bool :=
  items.any (fun it => it.product == pid)

/-- updateCartItem (lines 131-202). -/
def updateCartItem (catalog : List Product) (cart0 : Option Cart)
    (pid q : Nat) : CartResponse :=
  if q < 1 then .err 400 "Quantity must be at least 1"
  else
    match cart0 with
    | none => .err 404 "Cart not found"
    | some cart =>
      if hasItem cart.items pid = false then .err 404 "Item not found in cart"
      else
        match findById catalog pid with
        | none => .err 404 "Product not found or inactive"
        | some product =>
          if product.isActive = false then
            .err 404 "Product not found or inactive"
          else if product.inventoryQuantity < q then
            .err 400 (stockMsg product.inventoryQuantity)
          else
            .ok (cartSave
              { cart with items := setItemInItems cart.items pid q product.price })

/-- Splice of the first matching line item (line 231). -/
def removeItemFromItems (items : List CartItem) (pid : Nat) : List CartItem :=
  match items with
  | [] => []
  | it :: rest =>
    if it.product == pid then rest else it :: removeItemFromItems rest pid

/-- removeFromCart (lines 207-253). -/
def removeFromCart (cart0 : Option Cart) (pid : Nat) : CartResponse :=
  match cart0 with
  | none => .err 404 "Cart not found"
  | some cart =>
    if hasItem cart.items pid = false then .err 404 "Item not found in cart"
    else .ok (cartSave { cart with items := removeItemFromItems cart.items pid })

/-- clearCart (lines 258-284). -/
def clearCart (cart0 : Option Cart) : CartResponse :=
  match cart0 with
  | none => .err 404 "Cart not found"
  | some cart => .ok (cartSave { cart with items := [] })

/-- Whether a populated line item survives getCart's filter (line 25): its
product reference resolves and the product is active. -/
def itemProductActive (catalog : List Product) (it : CartItem) : Bool :=
  match findById catalog it.product with
  | none => false
  | some p => p.isActive

/-- Result of getCart: the returned cart view, whether a missing cart was
created (and persisted) first, and whether the filtered cart was persisted
by the conditional save at line 29. -/
structure GetCartResult where
  cart : Cart
  created : Bool
  saved : Bool
deriving Repr, DecidableEq

/-- getCart (lines 7-44).  Note the conditional save compares the filtered
item count against the stored `totalItems` (a sum of quantities), not
against the pre-filter item count. -/
def getCart (catalog : List Product) (cart0 : Option Cart) (user : Nat) :
    GetCartResult :=
  let cart := match cart0 with
    | some c => c
    | none => emptyCart user
  let items2 := cart.items.filter (itemProductActive catalog)
  if items2.length ≠ cart.totalItems then
    { cart := cartSave { cart with items := items2 },
      created := cart0.isNone, saved := true }
  else
    { cart := { cart with items := items2 },
      created := cart0.isNone, saved := false }

/-- The summary payload; `itemsCount` is `none` when the field is absent
from the response (the empty-cart branch at lines 293-302 omits it). -/
structure CartSummary where
  totalItems : Nat
  totalPrice : ℚ
  itemsCount : Option Nat
  isEmpty : Bool
deriving Repr, DecidableEq

/-- getCartSummary (lines 289-321); every path answers HTTP 200. -/
def getCartSummary (cart0 : Option Cart) : CartSummary :=
  match cart0 with
  | none => { totalItems := 0, totalPrice := 0, itemsCount := none, isEmpty := true }
  | some cart =>
    if cart.items.length = 0 then
      { totalItems := 0, totalPrice := 0, itemsCount := none, isEmpty := true }
    else
      { totalItems := cart.totalItems, totalPrice := cart.totalPrice,
        itemsCount := some cart.items.length, isEmpty := false }

/-- A validation error entry of validateCart (lines 343-368). -/
inductive VError where
  | unavailable (productId : Option Nat) (message : String)
  | insufficientStock (productId : Nat) (productName : String) (message : String)
  | priceChange (productId : Nat) (productName : String) (message : String)
      (oldPrice newPrice : ℚ)
deriving Repr, DecidableEq

/-- Message at line 354. -/
def insuffMsg (avail req : Nat) : String :=
  s!"Only {avail} items available, but {req} requested"

/-- Message at line 364. -/
def priceChangedMsg (o n : ℚ) : String :=
  s!"Price has changed from ${o} to ${n}"

/-- JS `Math.abs(item.price - item.product.price) > 0.01` (line 360). -/
def priceDrifted (snap live : ℚ) : Bool :=
  decide ((1 : ℚ)/100 < |snap - live|)

/-- The errors one loop iteration of validateCart pushes for a line item
(lines 341-372): at most one, availability checked before stock before
price drift, with `continue` after the first two checks. -/
def itemErrors (catalog : List Product) (it : CartItem) : List VError :=
  match findById catalog it.product with
  | none => [.unavailable none "Product is no longer available"]
  | some p =>
    if p.isActive = false then
      [.unavailable (some p.id) "Product is no longer available"]
    else if p.inventoryQuantity < it.quantity then
      [.insufficientStock p.id p.name (insuffMsg p.inventoryQuantity it.quantity)]
    else if priceDrifted it.price p.price then
      [.priceChange p.id p.name (priceChangedMsg it.price p.price) it.price p.price]
    else []

/-- Whether the loop pushes the item onto `validItems` (line 371): it did
not `continue` out at the availability or stock check. -/
def itemKept (catalog : List Product) (it : CartItem) : Bool :=
  match findById catalog it.product with
  | none => false
  | some p => p.isActive && decide (it.quantity ≤ p.inventoryQuantity)

/-- Result of validateCart: the 400 "Cart is empty" failure, or the 200
payload; `saved` is the cart persisted by the conditional save at lines
375-378, when it ran. -/
inductive ValidateResult where
  | emptyCart
  | ok (cart : Cart) (saved : Option Cart) (isValid : Bool)
      (errors : List VError) (validItemsCount : Nat)
deriving Repr, DecidableEq

/-- validateCart (lines 326-395). -/
def validateCart (catalog : List Product) (cart0 : Option Cart) : ValidateResult :=
  match cart0 with
  | none => .emptyCart
  | some cart =>
    if cart.items.length = 0 then .emptyCart
    else
      let errors := cart.items.flatMap (itemErrors catalog)
      let validItems := cart.items.filter (itemKept catalog)
      if 0 < errors.length ∧ validItems.length ≠ cart.items.length then
        let c2 := cartSave { cart with items := validItems }
        .ok c2 (some c2) (errors.length == 0) errors validItems.length
      else
        .ok cart none (errors.length == 0) errors validItems.length

/-- Coupon kinds of the hardcoded table (lines 405-409). -/
inductive CouponType where
  | percentage
  | fixedAmount
deriving Repr, DecidableEq

structure Coupon where
  discount : ℚ
  ctype : CouponType
deriving Repr, DecidableEq

/-- The hardcoded coupon table (lines 405-409). -/
def validCoupons (code : String) : Option Coupon :=
  if code == "SAVE10" then some { discount := 10, ctype := .percentage }
  else if code == "WELCOME20" then some { discount := 20, ctype := .percentage }
  else if code == "FLAT50" then some { discount := 50, ctype := .fixedAmount }
  else none

/-- Result of applyCoupon: unknown code (400), empty or absent cart (400),
or the computed discount payload. -/
inductive CouponResult where
  | invalidCode
  | emptyCart
  | ok (code : String) (originalPrice discountAmount finalPrice : ℚ)
deriving Repr, DecidableEq

/-- applyCoupon (lines 400-456). -/
def applyCoupon (cart0 : Option Cart) (code : String) : CouponResult :=
  match validCoupons code with
  | none => .invalidCode
  | some coupon =>
    match cart0 with
    | none => .emptyCart
    | some cart =>
      if cart.items.length = 0 then .emptyCart
      else
        let discountAmount :=
          match coupon.ctype with
          | .percentage => cart.totalPrice * coupon.discount / 100
          | .fixedAmount => min coupon.discount cart.totalPrice
        .ok code cart.totalPrice discountAmount (cart.totalPrice - discountAmount)

/-- applyCoupon together with the stored cart after the request: the source
performs no `cart.save()` on any path of applyCoupon, so the stored cart
is returned unchanged. -/
def applyCouponState (cart0 : Option Cart) (code : String) :
    CouponResult × Option Cart :=
  (applyCoupon cart0 code, cart0)

/-! ## Product controller (`src/unnamed/part_001`, `productController.js`) -/

/-- Case-insensitive regex-as-substring test, modelling
`new RegExp(s, 'i').test(target)` for plain pattern strings. -/
def ciContains (target pat : String) : Bool :=
  ((target.data.map Char.toLower).tails).any
    (fun t => (pat.data.map Char.toLower).isPrefixOf t)

/-- The getProducts query parameters (lines 9-21); absent fields are
`none`. -/
structure ProductQuery where
  page : Nat := 1
  limit : Nat := 12
  category : Option Nat := none
  brand : Option String := none
  minPrice : Option ℚ := none
  maxPrice : Option ℚ := none
  rating : Option ℚ := none
  search : Option String := none
  featured : Bool := false
deriving Repr, DecidableEq

/-- The Mongo filter object built at lines 23-50 of getProducts.  The
`$text` full-text predicate belongs to the database's index subsystem, an
external collaborator, and is passed in as `textMatch`. -/
def matchesFilter (textMatch : String → Product → Bool) (qy : ProductQuery)
    (p : Product) : Bool :=
  p.isActive
  && (match qy.category with | none => true | some c => p.category == c)
  && (match qy.brand with | none => true | some b => ciContains p.brand b)
  && (match qy.minPrice with | none => true | some m => decide (m ≤ p.price))
  && (match qy.maxPrice with | none => true | some m => decide (p.price ≤ m))
  && (match qy.rating with | none => true | some r => decide (r ≤ p.ratingsAverage))
  && (match qy.search with | none => true | some s => textMatch s p)
  && (!qy.featured || p.isFeatured)

/-- The product list of getProducts (lines 7-88): filter, database sort
(external collaborator, passed in as `sortFn`; it only reorders the
filtered documents), then skip and limit.  The pagination envelope is not
needed by the claims and not modelled. -/
def getProducts (textMatch : String → Product → Bool)
    (sortFn : List Product → List Product) (catalog : List Product)
    (qy : ProductQuery) : List Product :=
  let filtered := catalog.filter (matchesFilter textMatch qy)
  ((sortFn filtered).drop ((qy.page - 1) * qy.limit)).take qy.limit

/-- Result of getProduct (lines 93-118). -/
inductive GetProductResult where
  | notFound
  | ok (product : Product)
deriving Repr, DecidableEq

/-- getProduct (lines 93-118): findById then 404 when absent; there is no
isActive check on this path. -/
def getProduct (catalog : List Product) (pid : Nat) : GetProductResult :=
  match findById catalog pid with
  | none => .notFound
  | some p => .ok p

/-- The `$or` clause of searchProducts (lines 138-143). -/
def searchMatches (qs : String) (p : Product) : Bool :=
  ciContains p.name qs || ciContains p.description qs || ciContains p.brand qs
    || p.tags.any (fun t => ciContains t qs)

/-- Result of searchProducts (lines 123-164). -/
inductive SearchResult where
  | missingQuery
  | ok (products : List Product)
deriving Repr, DecidableEq

/-- searchProducts (lines 123-164): 400 when the query is falsy, otherwise
active products matching the `$or` clause, limited. -/
def searchProducts (catalog : List Product) (qs : String) (limit : Nat) :
    SearchResult :=
  if qs == "" then .missingQuery
  else .ok ((catalog.filter (fun p => p.isActive && searchMatches qs p)).take limit)

/-- Result of getRelatedProducts (lines 431-464). -/
inductive RelatedResult where
  | notFound
  | ok (products : List Product)
deriving Repr, DecidableEq

/-- getRelatedProducts (lines 431-464): same category, active, excluding
the anchor product itself, limited. -/
def getRelatedProducts (catalog : List Product) (pid limit : Nat) :
    RelatedResult :=
  match findById catalog pid with
  | none => .notFound
  | some p =>
    .ok ((catalog.filter
      (fun r => (r.id != p.id) && (r.category == p.category) && r.isActive)).take limit)

/-- Write-back of one modified document (`product.save()`): replace the
first document with the same id. -/
def saveProduct (catalog : List Product) (p2 : Product) : List Product :=
  match catalog with
  | [] => []
  | p :: rest => if p.id == p2.id then p2 :: rest else p :: saveProduct rest p2

/-- Result of deleteProduct (lines 230-255). -/
inductive DeleteResult where
  | notFound
  | deleted
deriving Repr, DecidableEq

/-- deleteProduct (lines 230-255): soft delete, sets `isActive := false`
and saves the same document back. -/
def deleteProduct (catalog : List Product) (pid : Nat) :
    DeleteResult × List Product :=
  match findById catalog pid with
  | none => (.notFound, catalog)
  | some p => (.deleted, saveProduct catalog { p with isActive := false })

/-- JS `Math.round`, which is `⌊x + 1/2⌋` for the non-negative values
occurring here. -/
def jsRound (x : ℚ) : ℤ := ⌊x + 1/2⌋

/-- calculateAverageRating (`src/models/Product.js` lines 131-140). -/
def calculateAverageRating (p : Product) : Product :=
  if p.reviews.length = 0 then
    { p with ratingsAverage := 0, ratingsCount := 0 }
  else
    let sum := (p.reviews.map (fun r => r.rating)).sum
    { p with
      ratingsAverage := (jsRound ((sum : ℚ) / (p.reviews.length : ℚ) * 10) : ℚ) / 10,
      ratingsCount := p.reviews.length }

/-- Result of addReview (product controller lines 260-307). -/
inductive ReviewResult where
  | notFound
  | alreadyReviewed
  | ok (product : Product)
deriving Repr, DecidableEq

/-- addReview (lines 260-307): reject a second review by the same user,
otherwise append the review, recompute the rating aggregate, save. -/
def addReview (catalog : List Product) (pid userId rating : Nat)
    (comment : String) : ReviewResult × List Product :=
  match findById catalog pid with
  | none => (.notFound, catalog)
  | some p =>
    if p.reviews.any (fun r => r.user == userId) then (.alreadyReviewed, catalog)
    else
      let p2 := calculateAverageRating
        { p with reviews :=
            p.reviews ++ [{ user := userId, rating := rating, comment := comment }] }
      (.ok p2, saveProduct catalog p2)

/-! ## Specification-side predicates -/

/-- The cart totals invariant of the spec: `totalItems = Σ quantity`,
`totalPrice = Σ price × quantity` over the current items. -/
def totalsInvariant (c : Cart) : Prop :=
  c.totalItems = sumQuantities c.items ∧ c.totalPrice = sumPrices c.items

/-- The rating invariant of the spec: `ratings.count` is the number of
reviews and `ratings.average` the mean rating rounded to one decimal
place, both zero when no reviews exist. -/
def ratingInvariant (p : Product) : Prop :=
  p.ratingsCount = p.reviews.length ∧
  (p.reviews = [] → p.ratingsAverage = 0) ∧
  (p.reviews ≠ [] →
    p.ratingsAverage =
      (jsRound (((p.reviews.map (fun r => r.rating)).sum : ℚ)
        / (p.reviews.length : ℚ) * 10) : ℚ) / 10)

/-- The cart stored in the database after a mutating request: the saved
cart on success, the prior stored cart when the request failed before any
`save`. -/
def persistAfter (cart0 : Option Cart) (r : CartResponse) : Option Cart :=
  match r with
  | .ok c => some c
  | .err _ _ => cart0

/-- Whether the decimal numeral of `n` occurs in `msg` — how "the message
states the quantity `n`" is read formally. -/
def msgStates (msg : String) (n : Nat) : Bool :=
  msg.data.tails.any (fun t => (toString n).data.isPrefixOf t)

/-! ## Concrete fixtures for witnesses and counterexamples -/

/-- A catalog product with the given id, price, inventory and active flag;
the remaining fields are fixed defaults. -/
def mkProduct (id : Nat) (price : ℚ) (inv : Nat) (act : Bool) : Product :=
  { id := id, name := "P", description := "D", price := price, category := 1,
    brand := "B", inventoryQuantity := inv, lowStockThreshold := 10,
    reviews := [], ratingsAverage := 0, ratingsCount := 0, isActive := act,
    isFeatured := false, tags := [] }

/-- Catalog of the add-to-cart scenario: one active product, price 10,
stock 5. -/
def demoCatalog : List Product := [mkProduct 1 10 5 true]

/-- Cart already holding quantity 3 of that product at snapshot price 10. -/
def demoCart : Cart :=
  { user := 1, items := [{ product := 1, quantity := 3, price := 10 }],
    totalItems := 3, totalPrice := 30 }

/-- A cart holding quantity 2 of product 1 with consistent totals. -/
def qtyTwoCart : Cart :=
  { user := 1, items := [{ product := 1, quantity := 2, price := 10 }],
    totalItems := 2, totalPrice := 20 }

/-- A product already carrying two reviews rated 5 and 4. -/
def reviewedProduct : Product :=
  { mkProduct 1 10 5 true with
      reviews := [{ user := 5, rating := 5, comment := "great" },
                  { user := 6, rating := 4, comment := "good" }],
      ratingsAverage := 5, ratingsCount := 2 }

def reviewedCatalog : List Product := [reviewedProduct]

/-- The product after user 7 adds a rating of 3: mean (5+4+3)/3 = 4.0. -/
def reviewedProduct2 : Product :=
  { reviewedProduct with
      reviews := reviewedProduct.reviews ++
        [{ user := 7, rating := 3, comment := "okay" }],
      ratingsAverage := 4, ratingsCount := 3 }

/-- Catalog of two active products in the same category. -/
def twoProductCatalog : List Product :=
  [mkProduct 1 10 5 true, mkProduct 2 10 5 true]

/-! ## Helper lemmas -/

theorem cartSave_totalsInvariant (c : Cart) : totalsInvariant (cartSave c) :=
  ⟨rfl, rfl⟩

theorem length_le_sumQuantities (items : List CartItem)
    (h : ∀ it ∈ items, 1 ≤ it.quantity) :
    items.length ≤ sumQuantities items := by
  induction items with
  | nil => simp [sumQuantities]
  | cons it rest ih =>
    have h1 := h it (List.mem_cons_self it rest)
    have h2 := ih (fun x hx => h x (List.mem_cons_of_mem it hx))
    simp only [sumQuantities, List.map_cons, List.sum_cons, List.length_cons]
    simp only [sumQuantities] at h2
    omega

theorem validateCart_ok_parts (catalog : List Product) (cart cart2 : Cart)
    (saved : Option Cart) (isValid : Bool) (errs : List VError) (cnt : Nat)
    (h : validateCart catalog (some cart) = .ok cart2 saved isValid errs cnt) :
    errs = cart.items.flatMap (itemErrors catalog) ∧
    cnt = (cart.items.filter (itemKept catalog)).length ∧
    isValid = (errs.length == 0) ∧
    (cart2.items = cart.items ∨
      cart2.items = cart.items.filter (itemKept catalog)) ∧
    (0 < errs.length → cnt ≠ cart.items.length →
      cart2.items = cart.items.filter (itemKept catalog)) := by
  simp only [validateCart] at h
  by_cases hlen : cart.items.length = 0
  · rw [if_pos hlen] at h
    exact absurd h (by simp)
  · rw [if_neg hlen] at h
    split at h
    · rename_i hcond
      simp only [ValidateResult.ok.injEq] at h
      obtain ⟨h1, h2, h3, h4, h5⟩ := h
      subst h1
      subst h3
      subst h4
      subst h5
      exact ⟨rfl, rfl, rfl, Or.inr rfl, fun _ _ => rfl⟩
    · rename_i hcond
      simp only [ValidateResult.ok.injEq] at h
      obtain ⟨h1, h2, h3, h4, h5⟩ := h
      subst h1
      subst h3
      subst h4
      subst h5
      refine ⟨rfl, rfl, rfl, Or.inl rfl, fun hpos hne => ?_⟩
      exact absurd ⟨hpos, hne⟩ hcond

theorem addItemToItems_over (items : List CartItem) (pid q inv : Nat) (price : ℚ)
    (it0 : CartItem)
    (hfind : items.find? (fun it => it.product == pid) = some it0)
    (hover : inv < it0.quantity + q) :
    addItemToItems items pid q inv price =
      .error (moreAvailMsg q ((inv : Int) - (it0.quantity : Int))) := by
  induction items with
  | nil => simp at hfind
  | cons it rest ih =>
    cases hp : it.product == pid with
    | true =>
      simp only [List.find?, hp, Option.some.injEq] at hfind
      subst hfind
      simp only [addItemToItems, hp, if_true]
      rw [if_pos hover]
    | false =>
      simp only [List.find?, hp] at hfind
      simp only [addItemToItems, hp, Bool.false_eq_true, if_false]
      rw [ih hfind]

theorem addItemToItems_ok_exists (items : List CartItem) (pid q inv : Nat)
    (price : ℚ) (it0 : CartItem)
    (hfind : items.find? (fun it => it.product == pid) = some it0)
    (hle : it0.quantity + q ≤ inv) :
    ∃ items2, addItemToItems items pid q inv price = .ok items2 := by
  induction items with
  | nil => simp at hfind
  | cons it rest ih =>
    cases hp : it.product == pid with
    | true =>
      simp only [List.find?, hp, Option.some.injEq] at hfind
      subst hfind
      refine ⟨{ it with quantity := it.quantity + q } :: rest, ?_⟩
      simp only [addItemToItems, hp, if_true]
      rw [if_neg (not_lt.mpr hle)]
    | false =>
      simp only [List.find?, hp] at hfind
      obtain ⟨rest2, hrest2⟩ := ih hfind
      refine ⟨it :: rest2, ?_⟩
      simp only [addItemToItems, hp, Bool.false_eq_true, if_false]
      rw [hrest2]

theorem addItemToItems_ok_find (items : List CartItem) (pid q inv : Nat)
    (price : ℚ) (it0 : CartItem) (items2 : List CartItem)
    (hfind : items.find? (fun it => it.product == pid) = some it0)
    (hok : addItemToItems items pid q inv price = .ok items2) :
    items2.find? (fun it => it.product == pid) =
      some { it0 with quantity := it0.quantity + q } := by
  induction items generalizing items2 with
  | nil => simp at hfind
  | cons it rest ih =>
    cases hp : it.product == pid with
    | true =>
      simp only [List.find?, hp, Option.some.injEq] at hfind
      subst hfind
      simp only [addItemToItems, hp, if_true] at hok
      split at hok
      · exact absurd hok (by simp)
      · injection hok with hok2
        subst hok2
        simp only [List.find?, hp]
    | false =>
      simp only [List.find?, hp] at hfind
      simp only [addItemToItems, hp, Bool.false_eq_true, if_false] at hok
      split at hok
      · exact absurd hok (by simp)
      · rename_i rest2 hrest2
        injection hok with hok2
        subst hok2
        simp only [List.find?, hp]
        exact ih _ hfind hrest2

theorem setItemInItems_find (items : List CartItem) (pid q : Nat) (price : ℚ)
    (hhas : hasItem items pid = true) :
    (setItemInItems items pid q price).find? (fun it => it.product == pid) =
      some { product := pid, quantity := q, price := price } := by
  induction items with
  | nil => simp [hasItem] at hhas
  | cons it rest ih =>
    cases hp : it.product == pid with
    | true =>
      simp only [setItemInItems, hp, if_true]
      have hpid : it.product = pid := eq_of_beq hp
      simp only [List.find?, hp]
      rw [hpid]
    | false =>
      simp only [setItemInItems, hp, Bool.false_eq_true, if_false]
      simp only [List.find?, hp]
      refine ih ?_
      unfold hasItem at hhas ⊢
      rw [List.any_cons] at hhas
      simpa [hp] using hhas

theorem addToCart_found (catalog : List Product) (cart0 : Option Cart)
    (user pid q : Nat) (P : Product)
    (hfindP : findById catalog pid = some P) (hact : P.isActive = true)
    (hq : q ≤ P.inventoryQuantity) :
    addToCart catalog cart0 user pid q =
      (match addItemToItems (cartOrNew cart0 user).items pid q
          P.inventoryQuantity P.price with
      | .error m => .err 400 m
      | .ok items2 => .ok (cartSave { cartOrNew cart0 user with items := items2 })) := by
  unfold addToCart
  split
  · rename_i heq
    rw [hfindP] at heq
    exact absurd heq (by simp)
  · rename_i product heq
    rw [hfindP] at heq
    injection heq with heq2
    subst heq2
    rw [if_neg (by simp [hact]), if_neg (not_lt.mpr hq)]

theorem addToCart_stock_err (catalog : List Product) (cart0 : Option Cart)
    (user pid q : Nat) (P : Product)
    (hfindP : findById catalog pid = some P) (hact : P.isActive = true)
    (hover : P.inventoryQuantity < q) :
    addToCart catalog cart0 user pid q =
      .err 400 (stockMsg P.inventoryQuantity) := by
  unfold addToCart
  split
  · rename_i heq
    rw [hfindP] at heq
    exact absurd heq (by simp)
  · rename_i product heq
    rw [hfindP] at heq
    injection heq with heq2
    subst heq2
    rw [if_neg (by simp [hact]), if_pos hover]

theorem saveProduct_length (catalog : List Product) (p2 : Product) :
    (saveProduct catalog p2).length = catalog.length := by
  induction catalog with
  | nil => rfl
  | cons p rest ih =>
    unfold saveProduct
    split
    · rfl
    · simp [ih]

theorem saveProduct_ids (catalog : List Product) (p2 : Product) :
    (saveProduct catalog p2).map (fun r => r.id) =
      catalog.map (fun r => r.id) := by
  induction catalog with
  | nil => rfl
  | cons p rest ih =>
    unfold saveProduct
    split
    · rename_i hid
      simp only [List.map_cons]
      rw [eq_of_beq hid]
    · simp only [List.map_cons]
      rw [ih]

theorem findById_saveProduct (catalog : List Product) (pid : Nat)
    (p p2 : Product) (hfind : findById catalog pid = some p)
    (hid : p2.id = p.id) :
    findById (saveProduct catalog p2) pid = some p2 := by
  induction catalog with
  | nil => simp [findById] at hfind
  | cons p0 rest ih =>
    unfold findById at hfind
    cases h0 : p0.id == pid with
    | true =>
      simp only [List.find?, h0, Option.some.injEq] at hfind
      subst hfind
      unfold saveProduct
      rw [if_pos (show (p0.id == p2.id) = true from beq_iff_eq.mpr hid.symm)]
      unfold findById
      have hpid : (p2.id == pid) = true := by
        rw [hid]
        exact h0
      simp only [List.find?, hpid]
    | false =>
      simp only [List.find?, h0] at hfind
      have hppid : (p.id == pid) = true := by
        have hps := List.find?_some hfind
        exact hps
      have hneq : (p0.id == p2.id) = false := by
        rw [hid, eq_of_beq hppid]
        exact h0
      unfold saveProduct
      rw [if_neg (by simp [hneq])]
      unfold findById
      simp only [List.find?, h0]
      exact ih hfind

theorem mem_getProducts_isActive
    (tm : String → Product → Bool) (sf : List Product → List Product)
    (catalog : List Product) (qy : ProductQuery) (r : Product)
    (hsf : ∀ l x, x ∈ sf l → x ∈ l)
    (hr : r ∈ getProducts tm sf catalog qy) : r.isActive = true := by
  unfold getProducts at hr
  have h1 : r ∈ sf (catalog.filter (matchesFilter tm qy)) :=
    List.mem_of_mem_drop (List.mem_of_mem_take hr)
  have h2 := hsf _ _ h1
  have h3 := (List.mem_filter.mp h2).2
  unfold matchesFilter at h3
  simp only [Bool.and_eq_true] at h3
  exact h3.1.1.1.1.1.1.1

theorem mem_search_isActive (catalog : List Product) (qs : String)
    (limit : Nat) (ps : List Product) (r : Product)
    (h : searchProducts catalog qs limit = .ok ps) (hr : r ∈ ps) :
    r.isActive = true := by
  unfold searchProducts at h
  split at h
  · exact absurd h (by simp)
  · injection h with h2
    subst h2
    have h3 := (List.mem_filter.mp (List.mem_of_mem_take hr)).2
    simp only [Bool.and_eq_true] at h3
    exact h3.1

theorem mem_related_isActive (catalog : List Product) (pid limit : Nat)
    (ps : List Product) (r : Product)
    (h : getRelatedProducts catalog pid limit = .ok ps) (hr : r ∈ ps) :
    r.isActive = true := by
  unfold getRelatedProducts at h
  split at h
  · exact absurd h (by simp)
  · injection h with h2
    subst h2
    have h3 := (List.mem_filter.mp (List.mem_of_mem_take hr)).2
    simp only [Bool.and_eq_true] at h3
    exact h3.2

/-! ## Claims -/

/-- C1: after any successful mutating cart operation (addToCart,
updateCartItem, removeFromCart, clearCart) the persisted cart satisfies
`totalItems = Σ quantity` and `totalPrice = Σ price × quantity` over its
current items; after clearCart the items are empty and both totals are
zero. -/
theorem claim_C1_totals_after_mutation :
    (∀ catalog cart0 user pid q c,
      addToCart catalog cart0 user pid q = .ok c → totalsInvariant c) ∧
    (∀ catalog cart0 pid q c,
      updateCartItem catalog cart0 pid q = .ok c → totalsInvariant c) ∧
    (∀ cart0 pid c, removeFromCart cart0 pid = .ok c → totalsInvariant c) ∧
    (∀ cart0 c, clearCart cart0 = .ok c →
      totalsInvariant c ∧ c.totalItems = 0 ∧ c.totalPrice = 0 ∧ c.items = []) := by
  refine ⟨?_, ?_, ?_, ?_⟩
  · intro catalog cart0 user pid q c h
    unfold addToCart at h
    repeat' split at h
    all_goals simp only [reduceCtorEq, CartResponse.ok.injEq] at h
    all_goals subst h
    all_goals exact cartSave_totalsInvariant _
  · intro catalog cart0 pid q c h
    unfold updateCartItem at h
    repeat' split at h
    all_goals simp only [reduceCtorEq, CartResponse.ok.injEq] at h
    all_goals subst h
    all_goals exact cartSave_totalsInvariant _
  · intro cart0 pid c h
    unfold removeFromCart at h
    repeat' split at h
    all_goals simp only [reduceCtorEq, CartResponse.ok.injEq] at h
    all_goals subst h
    all_goals exact cartSave_totalsInvariant _
  · intro cart0 c h
    unfold clearCart at h
    repeat' split at h
    all_goals simp only [reduceCtorEq, CartResponse.ok.injEq] at h
    all_goals subst h
    all_goals exact ⟨cartSave_totalsInvariant _, rfl, rfl, rfl⟩

/-- C1 witness: clearing the demo cart persists the empty cart with both
totals zero, and the totals invariant holds for it. -/
theorem claim_C1_witness :
    clearCart (some demoCart) =
      .ok { user := 1, items := [], totalItems := 0, totalPrice := 0 } ∧
    totalsInvariant { user := 1, items := [], totalItems := 0, totalPrice := 0 } := by
  have h : clearCart (some demoCart) =
      .ok { user := 1, items := [], totalItems := 0, totalPrice := 0 } := by decide
  exact ⟨h, (claim_C1_totals_after_mutation.2.2.2 _ _ h).1⟩

/-- C3 counterexample: for the demo cart (quantity 3 of product 1, stock 5)
a request for 6 more has 3 + 6 > 5, so the claim demands an OutOfStock
message stating the remaining purchasable quantity 5 − 3 = 2; the code
instead fails at the earlier plain stock check and answers "Only 5 items
available in stock", which does not state 2 anywhere. -/
theorem claim_C3_counterexample :
    demoCart.items.find? (fun it => it.product == 1) =
      some { product := 1, quantity := 3, price := 10 } ∧
    (mkProduct 1 10 5 true).inventoryQuantity < 3 + 6 ∧
    addToCart demoCatalog (some demoCart) 1 1 6 =
      .err 400 "Only 5 items available in stock" ∧
    msgStates "Only 5 items available in stock" (5 - 3) = false := by decide

/-- C3 (amended): merging quantity q onto an existing line item of quantity
q1 succeeds with quantity q1 + q when q1 + q is within inventory; when
q ≤ inventory < q1 + q it fails with status 400 and a message stating the
remaining purchasable quantity inventory − q1; when q alone exceeds
inventory it fails earlier with a message stating the total inventory
instead; on any failure the stored cart is unchanged. -/
theorem claim_C3_merge_and_stock (catalog : List Product) (cart : Cart)
    (user pid q : Nat) (P : Product) (it0 : CartItem)
    (hfindP : findById catalog pid = some P) (hact : P.isActive = true)
    (hit : cart.items.find? (fun it => it.product == pid) = some it0) :
    (q ≤ P.inventoryQuantity → P.inventoryQuantity < it0.quantity + q →
      addToCart catalog (some cart) user pid q =
        .err 400 (moreAvailMsg q
          ((P.inventoryQuantity : Int) - (it0.quantity : Int)))) ∧
    (it0.quantity + q ≤ P.inventoryQuantity →
      ∃ c, addToCart catalog (some cart) user pid q = .ok c ∧
        c.items.find? (fun it => it.product == pid) =
          some { it0 with quantity := it0.quantity + q } ∧
        totalsInvariant c) ∧
    (P.inventoryQuantity < q →
      addToCart catalog (some cart) user pid q =
        .err 400 (stockMsg P.inventoryQuantity)) ∧
    (∀ s m, addToCart catalog (some cart) user pid q = .err s m →
      persistAfter (some cart) (addToCart catalog (some cart) user pid q) =
        some cart) := by
  refine ⟨?_, ?_, ?_, ?_⟩
  · intro hq hover
    rw [addToCart_found catalog (some cart) user pid q P hfindP hact hq]
    simp only [cartOrNew]
    rw [addItemToItems_over cart.items pid q P.inventoryQuantity P.price it0
      hit hover]
  · intro hle
    have hq : q ≤ P.inventoryQuantity := le_trans (Nat.le_add_left q it0.quantity) hle
    obtain ⟨items2, hok⟩ :=
      addItemToItems_ok_exists cart.items pid q P.inventoryQuantity P.price it0
        hit hle
    rw [addToCart_found catalog (some cart) user pid q P hfindP hact hq]
    simp only [cartOrNew]
    rw [hok]
    refine ⟨_, rfl, ?_, cartSave_totalsInvariant _⟩
    exact addItemToItems_ok_find cart.items pid q P.inventoryQuantity P.price
      it0 items2 hit hok
  · intro hover
    exact addToCart_stock_err catalog (some cart) user pid q P hfindP hact hover
  · intro s m he
    rw [he]
    rfl

/-- C3 witness: the spec scenario — cart already at quantity 3, stock 5,
adding 3 more fails with the message stating the remaining purchasable
quantity 2. -/
theorem claim_C3_witness :
    addToCart demoCatalog (some demoCart) 1 1 3 =
      .err 400 "Cannot add 3 items. Only 2 more available" ∧
    msgStates "Cannot add 3 items. Only 2 more available" 2 = true := by
  have h := (claim_C3_merge_and_stock demoCatalog demoCart 1 1 3
      (mkProduct 1 10 5 true) { product := 1, quantity := 3, price := 10 }
      (by decide) (by decide) (by decide)).1 (by decide) (by decide)
  rw [h]
  exact ⟨by decide, by decide⟩

/-- C5: a successful updateCartItem leaves the targeted line item with the
current catalog price as its snapshot price (and the requested quantity),
whereas addToCart merging onto an existing line item leaves that line's
snapshot price unchanged, only increasing its quantity. -/
theorem claim_C5_price_snapshot :
    (∀ catalog cart0 pid q c P,
      findById catalog pid = some P →
      updateCartItem catalog cart0 pid q = .ok c →
      c.items.find? (fun it => it.product == pid) =
        some { product := pid, quantity := q, price := P.price }) ∧
    (∀ catalog cart user pid q c it0,
      cart.items.find? (fun it => it.product == pid) = some it0 →
      addToCart catalog (some cart) user pid q = .ok c →
      c.items.find? (fun it => it.product == pid) =
        some { it0 with quantity := it0.quantity + q }) := by
  constructor
  · intro catalog cart0 pid q c P hP h
    unfold updateCartItem at h
    repeat' split at h
    all_goals simp only [reduceCtorEq, CartResponse.ok.injEq] at h
    all_goals subst h
    rename_i hq1 cart hhas x product heq hact hinv
    rw [heq] at hP
    injection hP with hP2
    subst hP2
    have hhas2 : hasItem cart.items pid = true := by
      cases hb : hasItem cart.items pid with
      | true => rfl
      | false => exact absurd hb hhas
    exact setItemInItems_find cart.items pid q product.price hhas2
  · intro catalog cart user pid q c it0 hit h
    unfold addToCart at h
    repeat' split at h
    all_goals simp only [reduceCtorEq, CartResponse.ok.injEq] at h
    all_goals subst h
    rename_i x1 product heq hact hinv x2 items2 hok
    exact addItemToItems_ok_find cart.items pid q product.inventoryQuantity
      product.price it0 items2 hit hok

/-- C5 witness: the catalog price moved from 10 to 12 while the demo cart
holds the item at snapshot price 10; an explicit update to quantity 2
re-syncs the snapshot price to 12, while an add of 2 more keeps the
snapshot price at 10. -/
theorem claim_C5_witness :
    updateCartItem [mkProduct 1 12 5 true] (some demoCart) 1 2 =
      .ok { user := 1,
            items := [{ product := 1, quantity := 2, price := 12 }],
            totalItems := 2, totalPrice := 24 } ∧
    ({ user := 1, items := [{ product := 1, quantity := 2, price := 12 }],
        totalItems := 2, totalPrice := 24 } : Cart).items.find?
      (fun it => it.product == 1) =
        some { product := 1, quantity := 2, price := 12 } ∧
    addToCart demoCatalog (some demoCart) 1 1 2 =
      .ok { user := 1,
            items := [{ product := 1, quantity := 5, price := 10 }],
            totalItems := 5, totalPrice := 50 } ∧
    ({ user := 1, items := [{ product := 1, quantity := 5, price := 10 }],
        totalItems := 5, totalPrice := 50 } : Cart).items.find?
      (fun it => it.product == 1) =
        some { product := 1, quantity := 5, price := 10 } := by
  have h1 : updateCartItem [mkProduct 1 12 5 true] (some demoCart) 1 2 =
      .ok { user := 1,
            items := [{ product := 1, quantity := 2, price := 12 }],
            totalItems := 2, totalPrice := 24 } := by
    norm_num [updateCartItem, findById, hasItem, setItemInItems, cartSave,
      sumQuantities, sumPrices, demoCart, mkProduct]
  have h2 : addToCart demoCatalog (some demoCart) 1 1 2 =
      .ok { user := 1,
            items := [{ product := 1, quantity := 5, price := 10 }],
            totalItems := 5, totalPrice := 50 } := by
    norm_num [addToCart, findById, addItemToItems, cartOrNew, cartSave,
      sumQuantities, sumPrices, demoCart, demoCatalog, mkProduct]
  refine ⟨h1, ?_, h2, ?_⟩
  · exact claim_C5_price_snapshot.1 [mkProduct 1 12 5 true] (some demoCart) 1 2 _
      (mkProduct 1 12 5 true) (by decide) h1
  · exact claim_C5_price_snapshot.2 demoCatalog demoCart 1 1 2 _
      { product := 1, quantity := 3, price := 10 } (by decide) h2

/-- C4: for a known coupon code and a non-empty cart, applyCoupon answers
the computed discount — totalPrice × pct / 100 exactly for percentage
coupons, min(fixed, totalPrice) for fixed coupons, so the final price is
never negative for a fixed coupon — and no cart field is mutated or
persisted on any path. -/
theorem claim_C4_coupon (cart : Cart) (code : String) (cp : Coupon)
    (hcode : validCoupons code = some cp) (hne : cart.items ≠ []) :
    (cp.ctype = .percentage →
      applyCoupon (some cart) code =
        .ok code cart.totalPrice (cart.totalPrice * cp.discount / 100)
          (cart.totalPrice - cart.totalPrice * cp.discount / 100)) ∧
    (cp.ctype = .fixedAmount →
      applyCoupon (some cart) code =
        .ok code cart.totalPrice (min cp.discount cart.totalPrice)
          (cart.totalPrice - min cp.discount cart.totalPrice) ∧
      0 ≤ cart.totalPrice - min cp.discount cart.totalPrice) ∧
    (∀ cart0, (applyCouponState cart0 code).2 = cart0) := by
  have hlen : ¬cart.items.length = 0 := by
    simpa [List.length_eq_zero] using hne
  refine ⟨?_, ?_, fun cart0 => rfl⟩
  · intro hp
    simp only [applyCoupon, hcode, hp]
    rw [if_neg hlen]
  · intro hp
    refine ⟨?_, sub_nonneg.mpr (min_le_right _ _)⟩
    simp only [applyCoupon, hcode, hp]
    rw [if_neg hlen]

/-- C4 witness: the spec scenario — coupon FLAT50 on a cart with total 30
gives discount min(50, 30) = 30 (capped) and final price 0 ≥ 0. -/
theorem claim_C4_witness :
    applyCoupon (some demoCart) "FLAT50" =
      .ok "FLAT50" 30 (min (50 : ℚ) 30) (30 - min (50 : ℚ) 30) ∧
    min (50 : ℚ) 30 = 30 ∧ (30 : ℚ) - min (50 : ℚ) 30 = 0 ∧
    0 ≤ (30 : ℚ) - min (50 : ℚ) 30 ∧
    (applyCouponState (some demoCart) "FLAT50").2 = some demoCart := by
  have h := claim_C4_coupon demoCart "FLAT50"
    { discount := 50, ctype := .fixedAmount } (by decide) (by decide)
  exact ⟨(h.2.1 rfl).1, by norm_num, by norm_num, (h.2.1 rfl).2,
    h.2.2 (some demoCart)⟩

/-- C7 counterexample: for an absent cart (and likewise for an existing
empty cart) getCartSummary's 200 response omits the itemsCount field
(modelled as none), so the claim that every summary carries all of
{totalItems, totalPrice, itemsCount, isEmpty} fails. -/
theorem claim_C7_counterexample :
    getCartSummary none =
      { totalItems := 0, totalPrice := 0, itemsCount := none, isEmpty := true } ∧
    (getCartSummary none).itemsCount = none ∧
    (getCartSummary (some (emptyCart 1))).itemsCount = none := by decide

/-- C7 (amended): getCartSummary never fails: an absent or empty cart
yields isEmpty = true with zero totals (and no itemsCount field); a
non-empty cart yields the stored totals, the item count and
isEmpty = false. -/
theorem claim_C7_summary (cart0 : Option Cart) :
    (cart0 = none →
      getCartSummary cart0 =
        { totalItems := 0, totalPrice := 0, itemsCount := none,
          isEmpty := true }) ∧
    (∀ cart, cart0 = some cart → cart.items = [] →
      getCartSummary cart0 =
        { totalItems := 0, totalPrice := 0, itemsCount := none,
          isEmpty := true }) ∧
    (∀ cart, cart0 = some cart → cart.items ≠ [] →
      getCartSummary cart0 =
        { totalItems := cart.totalItems, totalPrice := cart.totalPrice,
          itemsCount := some cart.items.length, isEmpty := false }) := by
  refine ⟨?_, ?_, ?_⟩
  · intro h
    subst h
    rfl
  · intro cart h hnil
    subst h
    simp only [getCartSummary]
    rw [if_pos (by simp [hnil])]
  · intro cart h hne
    subst h
    simp only [getCartSummary]
    rw [if_neg (by simpa [List.length_eq_zero] using hne)]

/-- C7 witness: the demo cart summary carries all four fields; the absent
cart yields zero totals with isEmpty true. -/
theorem claim_C7_witness :
    getCartSummary (some demoCart) =
      { totalItems := 3, totalPrice := 30, itemsCount := some 1,
        isEmpty := false } ∧
    getCartSummary none =
      { totalItems := 0, totalPrice := 0, itemsCount := none,
        isEmpty := true } := by
  exact ⟨(claim_C7_summary (some demoCart)).2.2 demoCart rfl (by decide),
    (claim_C7_summary none).1 rfl⟩

/-- C6 counterexample: the demo cart holds one line item of quantity 2 for
an active product, so getCart's filtering removes nothing (the item count
is unchanged), yet the cart is persisted, because the save condition at
line 28 compares the filtered item count 1 against the stored totalItems 2
rather than against the pre-filter item count. -/
theorem claim_C6_counterexample :
    (qtyTwoCart.items.filter (itemProductActive demoCatalog)).length =
      qtyTwoCart.items.length ∧
    (getCart demoCatalog (some qtyTwoCart) 1).saved = true := by decide

/-- C6 (amended): getCart returns the existing cart (or a newly created
empty one) with the line items whose product is missing or inactive
filtered out; it persists the filtered cart exactly when the filtered item
count differs from the stored totalItems — in particular it always
persists when filtering removed an item from a cart satisfying the totals
invariant with positive quantities, but it may also persist when filtering
removed nothing and some quantity exceeds 1. -/
theorem claim_C6_getCart (catalog : List Product) (user : Nat) :
    (∀ cart,
      (getCart catalog (some cart) user).cart.items =
        cart.items.filter (itemProductActive catalog) ∧
      ((getCart catalog (some cart) user).saved = true ↔
        (cart.items.filter (itemProductActive catalog)).length ≠
          cart.totalItems) ∧
      ((∀ it ∈ cart.items, 1 ≤ it.quantity) →
        cart.totalItems = sumQuantities cart.items →
        (cart.items.filter (itemProductActive catalog)).length ≠
          cart.items.length →
        (getCart catalog (some cart) user).saved = true)) ∧
    ((getCart catalog none user).cart = emptyCart user ∧
      (getCart catalog none user).created = true ∧
      (getCart catalog none user).saved = false) := by
  constructor
  · intro cart
    by_cases hcond :
        (cart.items.filter (itemProductActive catalog)).length ≠ cart.totalItems
    · refine ⟨?_, ?_, ?_⟩
      · simp only [getCart]
        rw [if_pos hcond]
        exact rfl
      · simp only [getCart]
        rw [if_pos hcond]
        simp [hcond]
      · intro hq hinv hch
        simp only [getCart]
        rw [if_pos hcond]
    · refine ⟨?_, ?_, ?_⟩
      · simp only [getCart]
        rw [if_neg hcond]
      · simp only [getCart]
        rw [if_neg hcond]
        simp [hcond]
      · intro hq hinv hch
        exfalso
        push_neg at hcond
        have hle1 : (cart.items.filter (itemProductActive catalog)).length ≤
            cart.items.length := List.length_filter_le _ _
        have hlt : (cart.items.filter (itemProductActive catalog)).length <
            cart.items.length := lt_of_le_of_ne hle1 hch
        have hle2 : cart.items.length ≤ sumQuantities cart.items :=
          length_le_sumQuantities cart.items hq
        omega
  · refine ⟨?_, rfl, ?_⟩
    · simp [getCart, emptyCart]
    · simp [getCart, emptyCart]

/-- C6 witness: filtering the demo cart against its catalog keeps the item
and a fresh user gets a created empty cart; against an empty catalog the
item is filtered out and the cart is persisted. -/
theorem claim_C6_witness :
    (getCart demoCatalog (some demoCart) 1).cart.items =
      demoCart.items.filter (itemProductActive demoCatalog) ∧
    (getCart demoCatalog none 1).created = true ∧
    (getCart [] (some demoCart) 1).saved = true := by
  refine ⟨((claim_C6_getCart demoCatalog 1).1 demoCart).1,
    (claim_C6_getCart demoCatalog 1).2.2.1, ?_⟩
  exact ((claim_C6_getCart [] 1).1 demoCart).2.2 (by decide) (by decide)
    (by decide)

/-- C2: validateCart fails exactly for an absent or empty cart; on success
it returns the error list, the valid-item count and isValid ⟺ no errors;
a line item that passes the availability and stock checks — in particular
one whose only error is price drift — is never removed, while items
failing those checks are dropped from the cart whenever at least one error
exists and the valid-item count differs from the original item count. -/
theorem claim_C2_validateCart :
    (∀ catalog, validateCart catalog none = .emptyCart) ∧
    (∀ catalog cart, cart.items = [] →
      validateCart catalog (some cart) = .emptyCart) ∧
    (∀ catalog cart cart2 saved isValid errs cnt,
      validateCart catalog (some cart) = .ok cart2 saved isValid errs cnt →
      errs = cart.items.flatMap (itemErrors catalog) ∧
      cnt = (cart.items.filter (itemKept catalog)).length ∧
      (isValid = true ↔ errs = []) ∧
      (∀ it ∈ cart.items, itemKept catalog it = true → it ∈ cart2.items) ∧
      (0 < errs.length → cnt ≠ cart.items.length →
        ∀ it ∈ cart.items, itemKept catalog it = false →
          it ∉ cart2.items)) := by
  refine ⟨fun catalog => rfl, ?_, ?_⟩
  · intro catalog cart hnil
    simp only [validateCart]
    rw [if_pos (by simp [hnil])]
  · intro catalog cart cart2 saved isValid errs cnt h
    obtain ⟨he, hc, hv, hitems, hforce⟩ :=
      validateCart_ok_parts catalog cart cart2 saved isValid errs cnt h
    refine ⟨he, hc, ?_, ?_, ?_⟩
    · subst hv
      simp [List.length_eq_zero]
    · intro it hmem hkept
      cases hitems with
      | inl h2 =>
        rw [h2]
        exact hmem
      | inr h2 =>
        rw [h2]
        exact List.mem_filter.mpr ⟨hmem, hkept⟩
    · intro hpos hne it hmem hkept hmem2
      rw [hforce hpos hne] at hmem2
      have hk := (List.mem_filter.mp hmem2).2
      rw [hkept] at hk
      exact Bool.false_ne_true hk

/-- C2 witness: an empty cart is rejected; the consistent demo cart
validates cleanly, keeping its single (drift-free, in-stock) item, with no
errors and isValid true. -/
theorem claim_C2_witness :
    validateCart demoCatalog (some (emptyCart 1)) = .emptyCart ∧
    validateCart demoCatalog (some demoCart) = .ok demoCart none true [] 1 ∧
    (true = true ↔ ([] : List VError) = []) := by
  have h3 : validateCart demoCatalog (some demoCart) =
      .ok demoCart none true [] 1 := by
    norm_num [validateCart, itemErrors, itemKept, priceDrifted, findById,
      demoCart, demoCatalog, mkProduct, List.flatMap]
  exact ⟨claim_C2_validateCart.2.1 demoCatalog (emptyCart 1) rfl, h3,
    (claim_C2_validateCart.2.2 demoCatalog demoCart demoCart none true [] 1
      h3).2.2.1⟩

/-- C10: validateCart produces at most one error entry per line item, with
fixed precedence — a missing or inactive product yields only the
unavailability error, otherwise excessive quantity yields only the
insufficient-stock error, and only when both checks pass is price drift
examined (and the item counted valid); the endpoint's error list is the
concatenation of the per-item errors. -/
theorem claim_C10_error_precedence :
    ∀ catalog it,
      (itemErrors catalog it).length ≤ 1 ∧
      (findById catalog it.product = none →
        itemErrors catalog it =
          [.unavailable none "Product is no longer available"] ∧
        itemKept catalog it = false) ∧
      (∀ p, findById catalog it.product = some p →
        (p.isActive = false →
          itemErrors catalog it =
            [.unavailable (some p.id) "Product is no longer available"] ∧
          itemKept catalog it = false) ∧
        (p.isActive = true → p.inventoryQuantity < it.quantity →
          itemErrors catalog it =
            [.insufficientStock p.id p.name
              (insuffMsg p.inventoryQuantity it.quantity)] ∧
          itemKept catalog it = false) ∧
        (p.isActive = true → it.quantity ≤ p.inventoryQuantity →
          itemKept catalog it = true ∧
          itemErrors catalog it =
            (if priceDrifted it.price p.price then
              [.priceChange p.id p.name (priceChangedMsg it.price p.price)
                it.price p.price]
             else []))) ∧
      (∀ cart cart2 saved isValid errs cnt,
        validateCart catalog (some cart) = .ok cart2 saved isValid errs cnt →
        errs = cart.items.flatMap (itemErrors catalog)) := by
  intro catalog it
  refine ⟨?_, ?_, ?_, ?_⟩
  · unfold itemErrors
    split
    · simp
    · split
      · simp
      · split
        · simp
        · split <;> simp
  · intro hnone
    constructor
    · simp [itemErrors, hnone]
    · simp [itemKept, hnone]
  · intro p hp
    refine ⟨?_, ?_, ?_⟩
    · intro hact
      constructor
      · simp [itemErrors, hp, hact]
      · simp [itemKept, hp, hact]
    · intro hact hover
      constructor
      · simp [itemErrors, hp, hact, hover]
      · simp only [itemKept, hp, hact, Bool.true_and]
        simp [Nat.not_le.mpr hover]
    · intro hact hle
      constructor
      · simp [itemKept, hp, hact, hle]
      · simp [itemErrors, hp, hact, Nat.not_lt.mpr hle]
  · intro cart cart2 saved isValid errs cnt h
    exact (validateCart_ok_parts catalog cart cart2 saved isValid errs cnt h).1

/-- C10 witness: a line item for an inactive product whose snapshot price
also drifted yields exactly one error, the unavailability one, and is not
counted valid. -/
theorem claim_C10_witness :
    itemErrors [mkProduct 1 20 5 false]
        { product := 1, quantity := 1, price := 10 } =
      [.unavailable (some 1) "Product is no longer available"] ∧
    itemKept [mkProduct 1 20 5 false]
        { product := 1, quantity := 1, price := 10 } = false ∧
    (itemErrors [mkProduct 1 20 5 false]
        { product := 1, quantity := 1, price := 10 }).length ≤ 1 := by
  have h := claim_C10_error_precedence [mkProduct 1 20 5 false]
    { product := 1, quantity := 1, price := 10 }
  have h2 := (h.2.2.1 (mkProduct 1 20 5 false) (by decide)).1 (by decide)
  exact ⟨h2.1, h2.2, h.1⟩

/-- C8: whenever the review list changes through calculateAverageRating —
in particular after addReview appends a review — ratings.count equals the
number of reviews and ratings.average equals the mean rating rounded to
one decimal place, both zero when no reviews exist. -/
theorem claim_C8_rating_invariant :
    (∀ p, ratingInvariant (calculateAverageRating p)) ∧
    (∀ catalog pid userId rating comment p2 catalog2,
      addReview catalog pid userId rating comment = (.ok p2, catalog2) →
      ratingInvariant p2) := by
  have main : ∀ p, ratingInvariant (calculateAverageRating p) := by
    intro p
    unfold calculateAverageRating
    by_cases hl : p.reviews.length = 0
    · rw [if_pos hl]
      refine ⟨hl.symm, fun _ => rfl, fun hne => ?_⟩
      exact absurd (List.length_eq_zero.mp hl) hne
    · rw [if_neg hl]
      refine ⟨rfl, fun hnil => ?_, fun _ => rfl⟩
      exact absurd (by rw [hnil]; rfl) hl
  refine ⟨main, ?_⟩
  intro catalog pid userId rating comment p2 catalog2 h
  unfold addReview at h
  repeat' split at h
  all_goals simp only [Prod.mk.injEq, reduceCtorEq, ReviewResult.ok.injEq,
    false_and] at h
  obtain ⟨h1, h2⟩ := h
  subst h1
  exact main _

/-- C8 witness: the spec scenario — reviews rated 5 and 4 plus a new
rating 3 give average (5+4+3)/3 = 4.0 and count 3, and the invariant holds
for the saved product. -/
theorem claim_C8_witness :
    addReview reviewedCatalog 1 7 3 "okay" =
      (.ok reviewedProduct2, [reviewedProduct2]) ∧
    ratingInvariant reviewedProduct2 ∧
    reviewedProduct2.ratingsAverage = 4 ∧
    reviewedProduct2.ratingsCount = 3 := by
  have he : addReview reviewedCatalog 1 7 3 "okay" =
      (.ok reviewedProduct2, [reviewedProduct2]) := by
    norm_num [addReview, findById, calculateAverageRating, saveProduct,
      jsRound, reviewedCatalog, reviewedProduct, reviewedProduct2, mkProduct]
  exact ⟨he, claim_C8_rating_invariant.2 reviewedCatalog 1 7 3 "okay"
    reviewedProduct2 [reviewedProduct2] he, rfl, rfl⟩

/-- C9: deleteProduct only flips isActive to false, preserving the record
(same catalog length and ids); the soft-deleted product remains
retrievable by getProduct while being excluded from the product list,
search, and related-products results. -/
theorem claim_C9_soft_delete (catalog : List Product) (pid : Nat)
    (p : Product) (hfind : findById catalog pid = some p) :
    (deleteProduct catalog pid).1 = .deleted ∧
    ((deleteProduct catalog pid).2).length = catalog.length ∧
    ((deleteProduct catalog pid).2).map (fun r => r.id) =
      catalog.map (fun r => r.id) ∧
    getProduct (deleteProduct catalog pid).2 pid =
      .ok { p with isActive := false } ∧
    ({ p with isActive := false } : Product).isActive = false ∧
    (∀ tm sf qy, (∀ l x, x ∈ sf l → x ∈ l) →
      { p with isActive := false } ∉
        getProducts tm sf (deleteProduct catalog pid).2 qy) ∧
    (∀ qs limit ps,
      searchProducts (deleteProduct catalog pid).2 qs limit = .ok ps →
      { p with isActive := false } ∉ ps) ∧
    (∀ pid2 limit ps,
      getRelatedProducts (deleteProduct catalog pid).2 pid2 limit = .ok ps →
      { p with isActive := false } ∉ ps) := by
  have hdel : deleteProduct catalog pid =
      (.deleted, saveProduct catalog { p with isActive := false }) := by
    unfold deleteProduct
    split
    · rename_i heq
      rw [hfind] at heq
      exact absurd heq (by simp)
    · rename_i p' heq
      rw [hfind] at heq
      injection heq with h2
      subst h2
      rfl
  rw [hdel]
  refine ⟨rfl, saveProduct_length catalog _, saveProduct_ids catalog _,
    ?_, rfl, ?_, ?_, ?_⟩
  · unfold getProduct
    rw [findById_saveProduct catalog pid p { p with isActive := false }
      hfind rfl]
  · intro tm sf qy hsf hmem
    have hact := mem_getProducts_isActive tm sf _ qy _ hsf hmem
    simp at hact
  · intro qs limit ps hok hmem
    have hact := mem_search_isActive _ qs limit ps _ hok hmem
    simp at hact
  · intro pid2 limit ps hok hmem
    have hact := mem_related_isActive _ pid2 limit ps _ hok hmem
    simp at hact

/-- C9 witness: deleting product 1 from the two-product catalog keeps both
records, getProduct still returns it (now inactive), and it is absent from
the list, the search results for "P", and the products related to it. -/
theorem claim_C9_witness :
    (deleteProduct twoProductCatalog 1).1 = .deleted ∧
    ((deleteProduct twoProductCatalog 1).2).length = 2 ∧
    getProduct (deleteProduct twoProductCatalog 1).2 1 =
      .ok { mkProduct 1 10 5 true with isActive := false } ∧
    { mkProduct 1 10 5 true with isActive := false } ∉
      getProducts (fun _ _ => true) (fun l => l)
        (deleteProduct twoProductCatalog 1).2 {} ∧
    searchProducts (deleteProduct twoProductCatalog 1).2 "P" 10 =
      .ok [mkProduct 2 10 5 true] ∧
    getRelatedProducts (deleteProduct twoProductCatalog 1).2 1 4 =
      .ok [mkProduct 2 10 5 true] ∧
    { mkProduct 1 10 5 true with isActive := false } ∉
      [mkProduct 2 10 5 true] := by
  have h := claim_C9_soft_delete twoProductCatalog 1 (mkProduct 1 10 5 true)
    (by decide)
  have hs : searchProducts (deleteProduct twoProductCatalog 1).2 "P" 10 =
      .ok [mkProduct 2 10 5 true] := by decide
  have hr : getRelatedProducts (deleteProduct twoProductCatalog 1).2 1 4 =
      .ok [mkProduct 2 10 5 true] := by decide
  exact ⟨h.1, h.2.1, h.2.2.2.1,
    h.2.2.2.2.2.1 (fun _ _ => true) (fun l => l) {} (fun l x hx => hx),
    hs, hr, h.2.2.2.2.2.2.1 "P" 10 _ hs⟩

end ECommerce
